import Mathlib

/-!
Shallow embedding of `src/geometries.rs` from the Wenderer repository.

The source builds GPU meshes (`Mesh2`, `Mesh3`) from position / attribute /
index lists: positions are transformed by an optional matrix composed with a
fixed clip-space conversion matrix (with a perspective divide), vertices are
packed in input order, and the logical index list is narrowed to a 16-bit or
32-bit encoding chosen from the vertex count.

Modelling conventions:
* `f32` values are modelled as exact rationals (`ℚ`).  Every claim settled
  here is about control flow, list structure, index arithmetic, or values
  that are exactly representable in `f32` (0, 1, 1/2, …), so exact
  arithmetic is faithful.  Rust's `f32` division by zero yields a non-finite
  float and never fails; Lean's `ℚ` division by zero yields `0` and never
  fails — in both semantics the divide is total, which is the only fact the
  claims depend on at `w = 0`.
* Rust's `as u16` / `as u32` integer casts truncate; they are modelled as
  `% 2 ^ 16` / `% 2 ^ 32` on `ℕ`.
* `rayon`'s `par_iter().map(..).collect()` reassembles results in the input
  order, so it is embedded as an order-preserving `List.map`.
* The `assert_eq!` length check at the top of each constructor is the only
  way construction can abort; it is modelled as `Except.error` of a
  `MeshError`.
-/

/-- wgpu index format tag (`wgpu::IndexFormat`). -/
inductive IndexFormat where
  | Uint16 : IndexFormat
  | Uint32 : IndexFormat
deriving DecidableEq

/-- cgmath `Vector2<f32>` (type alias `V2` in the source). -/
structure V2 where
  x : ℚ
  y : ℚ
deriving DecidableEq

/-- cgmath `Vector3<f32>` (type alias `V3` in the source). -/
structure V3 where
  x : ℚ
  y : ℚ
  z : ℚ
deriving DecidableEq

/-- cgmath `Vector4<f32>` (type alias `V4` in the source). -/
structure V4 where
  x : ℚ
  y : ℚ
  z : ℚ
  w : ℚ
deriving DecidableEq

/-- cgmath `Matrix4<f32>` (type alias `Mat4`), column-major: four columns. -/
structure Mat4 where
  c0 : V4
  c1 : V4
  c2 : V4
  c3 : V4
deriving DecidableEq

/-- cgmath matrix-vector product `m * v` (columns weighted by components). -/
def Mat4.mulVec (m : Mat4) (v : V4) : V4 :=
  { x := v.x * m.c0.x + v.y * m.c1.x + v.z * m.c2.x + v.w * m.c3.x
    y := v.x * m.c0.y + v.y * m.c1.y + v.z * m.c2.y + v.w * m.c3.y
    z := v.x * m.c0.z + v.y * m.c1.z + v.z * m.c2.z + v.w * m.c3.z
    w := v.x * m.c0.w + v.y * m.c1.w + v.z * m.c2.w + v.w * m.c3.w }

/-- cgmath matrix-matrix product `a * b`: each column of `b` mapped by `a`. -/
def Mat4.mul (a b : Mat4) : Mat4 :=
  { c0 := a.mulVec b.c0
    c1 := a.mulVec b.c1
    c2 := a.mulVec b.c2
    c3 := a.mulVec b.c3 }

/-- Modelled from the spec: `OPENGL_TO_WGPU_MATRIX`, defined in the
repository's `rendering` module whose source is not included here.  Per the
spec it is the fixed clip-space conversion matrix `diag(1,1,0.5,1)` with a
`(0,0,0.5,0)` translation effect on z, i.e. `z' = 0.5*z + 0.5` with x, y, w
unchanged; in column-major form the third column is `(0,0,1/2,0)` and the
fourth `(0,0,1/2,1)`. -/
def OPENGL_TO_WGPU_MATRIX : Mat4 :=
  { c0 := ⟨1, 0, 0, 0⟩
    c1 := ⟨0, 1, 0, 0⟩
    c2 := ⟨0, 0, 1/2, 0⟩
    c3 := ⟨0, 0, 1/2, 1⟩ }

/-- Vertex record with a 2-component attribute (`data::Vertex2`):
`position: [f32; 3]`, `attrib: [f32; 2]`. -/
structure Vertex2 where
  position : ℚ × ℚ × ℚ
  attrib : ℚ × ℚ
deriving DecidableEq

/-- Vertex record with a 3-component attribute (`data::Vertex3`):
`position: [f32; 3]`, `attrib: [f32; 3]`. -/
structure Vertex3 where
  position : ℚ × ℚ × ℚ
  attrib : ℚ × ℚ × ℚ
deriving DecidableEq

/-- Construction failure: the `assert_eq!(vertices.len(), attribs.len())`
at the top of `Mesh2::new` / `Mesh3::new` (a Rust panic, modelled as an
error value). -/
inductive MeshError where
  | lengthMismatch : MeshError
deriving DecidableEq

/-- The effective transform matrix of `Mesh2::new` / `Mesh3::new`:
`transform_mat * OPENGL_TO_WGPU_MATRIX` when a matrix is supplied, else
`OPENGL_TO_WGPU_MATRIX` alone. -/
def effectiveMatrix (transform_matrix : Option Mat4) : Mat4 :=
  match transform_matrix with
  | some transform_mat => transform_mat.mul OPENGL_TO_WGPU_MATRIX
  | none => OPENGL_TO_WGPU_MATRIX

/-- The per-position body of the parallel map in `Mesh2::new` / `Mesh3::new`:
`let v = transform_matrix * V4::new(v.x, v.y, v.z, 1.0); v.xyz() / v.w`.
The divide is unconditional in the source; over `ℚ`, division by zero
yields 0 (in the source it yields non-finite `f32` values) — in both cases
no error is raised. -/
def transformPoint (m : Mat4) (p : V3) : ℚ × ℚ × ℚ :=
  let v := m.mulVec ⟨p.x, p.y, p.z, 1⟩
  (v.x / v.w, v.y / v.w, v.z / v.w)

/-- The vertex-building pipeline of `Mesh2::new`: parallel map of
`transformPoint` over the positions, zipped with the attributes, packed into
`Vertex2` records (order-preserving). -/
def mkVertices2 (m : Mat4) (positions : List V3) (attribs : List V2) :
    List Vertex2 :=
  List.zipWith (fun v a => { position := v, attrib := (a.x, a.y) })
    (positions.map (transformPoint m)) attribs

/-- The vertex-building pipeline of `Mesh3::new`, packing `Vertex3` records. -/
def mkVertices3 (m : Mat4) (positions : List V3) (attribs : List V3) :
    List Vertex3 :=
  List.zipWith (fun v a => { position := v, attrib := (a.x, a.y, a.z) })
    (positions.map (transformPoint m)) attribs

/-- `geometries::Mesh2` (fields in source order). -/
structure Mesh2 where
  vertices : List Vertex2
  indices_u16 : List ℕ
  indices_u32 : List ℕ
  index_format : IndexFormat
  index_length : ℕ
deriving DecidableEq

/-- `geometries::Mesh3` (fields in source order: `indices_u32` before
`indices_u16`). -/
structure Mesh3 where
  vertices : List Vertex3
  indices_u32 : List ℕ
  indices_u16 : List ℕ
  index_format : IndexFormat
  index_length : ℕ
deriving DecidableEq

/-- `Mesh2::new`.  The `assert_eq!` is the error case; then positions are
transformed and packed; then the index list is narrowed: `x as u16`
(`% 2 ^ 16`) into `indices_u16` with tag `Uint16` when the produced vertex
count is `≤ u16::MAX = 65535`, else `x as u32` (`% 2 ^ 32`) into
`indices_u32` with tag `Uint32`. -/
def Mesh2.new (vertices : List V3) (indices : List ℕ) (attribs_2D : List V2)
    (transform_matrix : Option Mat4) : Except MeshError Mesh2 :=
  if vertices.length = attribs_2D.length then
    let verts := mkVertices2 (effectiveMatrix transform_matrix) vertices attribs_2D
    let index_length := indices.length
    if verts.length ≤ 65535 then
      .ok { vertices := verts
            indices_u16 := indices.map (fun x => x % 2 ^ 16)
            indices_u32 := []
            index_format := .Uint16
            index_length := index_length }
    else
      .ok { vertices := verts
            indices_u16 := []
            indices_u32 := indices.map (fun x => x % 2 ^ 32)
            index_format := .Uint32
            index_length := index_length }
  else
    .error .lengthMismatch

/-- `Mesh3::new` (same pipeline as `Mesh2::new`, 3-component attributes). -/
def Mesh3.new (vertices : List V3) (indices : List ℕ) (attribs_3D : List V3)
    (transform_matrix : Option Mat4) : Except MeshError Mesh3 :=
  if vertices.length = attribs_3D.length then
    let verts := mkVertices3 (effectiveMatrix transform_matrix) vertices attribs_3D
    let index_length := indices.length
    if verts.length ≤ 65535 then
      .ok { vertices := verts
            indices_u32 := []
            indices_u16 := indices.map (fun x => x % 2 ^ 16)
            index_format := .Uint16
            index_length := index_length }
    else
      .ok { vertices := verts
            indices_u32 := indices.map (fun x => x % 2 ^ 32)
            indices_u16 := []
            index_format := .Uint32
            index_length := index_length }
  else
    .error .lengthMismatch

/-- `Mesh2::get_num_indices` (Geometry impl): returns `index_length`. -/
def Mesh2.get_num_indices (m : Mesh2) : ℕ :=
  m.index_length

/-- `Mesh2::get_index_format` (Geometry impl). -/
def Mesh2.get_index_format (m : Mesh2) : IndexFormat :=
  m.index_format

/-- `Mesh3::get_num_indices` (Geometry impl): returns `index_length`. -/
def Mesh3.get_num_indices (m : Mesh3) : ℕ :=
  m.index_length

/-- `Mesh3::get_index_format` (Geometry impl). -/
def Mesh3.get_index_format (m : Mesh3) : IndexFormat :=
  m.index_format

/-- `geometries::Rectangle`: a composite shape delegating to an internal
`Mesh2`. -/
structure Rectangle where
  mesh : Mesh2

/-- `Rectangle::INDICES` (`usize` constants). -/
def Rectangle.INDICES : List ℕ :=
  [0, 1, 2, 0, 2, 3]

/-- `Rectangle::new_unit_rectangle`: unit-square positions, UV attributes,
`Rectangle::INDICES`, no transform, delegated to `Mesh2::new`. -/
def Rectangle.new_unit_rectangle : Except MeshError Rectangle :=
  (Mesh2.new [⟨0, 0, 0⟩, ⟨1, 0, 0⟩, ⟨1, 1, 0⟩, ⟨0, 1, 0⟩]
      Rectangle.INDICES
      [⟨0, 1⟩, ⟨1, 1⟩, ⟨1, 0⟩, ⟨0, 0⟩]
      none).map Rectangle.mk

/-- `Rectangle::get_num_indices`: delegates to the internal mesh. -/
def Rectangle.get_num_indices (r : Rectangle) : ℕ :=
  r.mesh.get_num_indices

/-- `Rectangle::get_index_format`: delegates to the internal mesh. -/
def Rectangle.get_index_format (r : Rectangle) : IndexFormat :=
  r.mesh.get_index_format

/-- An all-zero transform matrix: a concrete supplied transform whose
composition with the clip-conversion matrix sends every homogeneous
position to `(0,0,0,0)`, so the perspective-divide weight `w` is zero. -/
def zeroMat : Mat4 :=
  ⟨⟨0, 0, 0, 0⟩, ⟨0, 0, 0, 0⟩, ⟨0, 0, 0, 0⟩, ⟨0, 0, 0, 0⟩⟩

/-- The claim-C8 phrase "exactly one of the two index encodings (16-bit
buffer, 32-bit buffer) is populated while the other is empty", formalised
as stated (populated = non-empty), for `Mesh2`. -/
def Mesh2.exactlyOneEncodingPopulated (m : Mesh2) : Prop :=
  (m.indices_u16 ≠ [] ∧ m.indices_u32 = []) ∨
  (m.indices_u32 ≠ [] ∧ m.indices_u16 = [])

/-- The packed vertex list has the input length when the precondition holds. -/
theorem mkVertices2_length (m : Mat4) (ps : List V3) (as : List V2)
    (h : ps.length = as.length) : (mkVertices2 m ps as).length = ps.length := by
  simp [mkVertices2, h]

/-- The packed vertex list has the input length when the precondition holds. -/
theorem mkVertices3_length (m : Mat4) (ps : List V3) (as : List V3)
    (h : ps.length = as.length) : (mkVertices3 m ps as).length = ps.length := by
  simp [mkVertices3, h]

/-- Element `i` of the packed vertex list pairs the transformed position `i`
with attribute `i`. -/
theorem mkVertices2_getElem (m : Mat4) (ps : List V3) (as : List V2) (i : ℕ)
    (hv : i < (mkVertices2 m ps as).length) (hi : i < ps.length) (ha : i < as.length) :
    (mkVertices2 m ps as)[i] =
      ⟨transformPoint m ps[i], ((as[i]).x, (as[i]).y)⟩ := by
  simp [mkVertices2]

/-- Element `i` of the packed vertex list pairs the transformed position `i`
with attribute `i`. -/
theorem mkVertices3_getElem (m : Mat4) (ps : List V3) (as : List V3) (i : ℕ)
    (hv : i < (mkVertices3 m ps as).length) (hi : i < ps.length) (ha : i < as.length) :
    (mkVertices3 m ps as)[i] =
      ⟨transformPoint m ps[i], ((as[i]).x, (as[i]).y, (as[i]).z)⟩ := by
  simp [mkVertices3]

/-- Unfolding of `Mesh2.new` under the length precondition: success in both
width branches, with the branch decided by the position count. -/
theorem mesh2_new_eq_ok (ps : List V3) (idx : List ℕ) (as : List V2) (tm : Option Mat4)
    (h : ps.length = as.length) :
    Mesh2.new ps idx as tm =
      (if ps.length ≤ 65535 then
        .ok ⟨mkVertices2 (effectiveMatrix tm) ps as,
             idx.map (fun x => x % 2 ^ 16), [], .Uint16, idx.length⟩
      else
        .ok ⟨mkVertices2 (effectiveMatrix tm) ps as,
             [], idx.map (fun x => x % 2 ^ 32), .Uint32, idx.length⟩) := by
  simp only [Mesh2.new, if_pos h, mkVertices2_length _ _ _ h]

/-- Unfolding of `Mesh3.new` under the length precondition. -/
theorem mesh3_new_eq_ok (ps : List V3) (idx : List ℕ) (as : List V3) (tm : Option Mat4)
    (h : ps.length = as.length) :
    Mesh3.new ps idx as tm =
      (if ps.length ≤ 65535 then
        .ok ⟨mkVertices3 (effectiveMatrix tm) ps as,
             [], idx.map (fun x => x % 2 ^ 16), .Uint16, idx.length⟩
      else
        .ok ⟨mkVertices3 (effectiveMatrix tm) ps as,
             idx.map (fun x => x % 2 ^ 32), [], .Uint32, idx.length⟩) := by
  simp only [Mesh3.new, if_pos h, mkVertices3_length _ _ _ h]

/-- Order-preservation core: under the length precondition both constructors
succeed, the vertex count equals the position count, and vertex `i` holds the
transformed position `i` and attribute `i`. -/
theorem mesh_new_order_spec (ps : List V3) (idx : List ℕ) (as2 : List V2)
    (as3 : List V3) (tm : Option Mat4)
    (h2 : ps.length = as2.length) (h3 : ps.length = as3.length) :
    (∃ m, Mesh2.new ps idx as2 tm = .ok m ∧ m.vertices.length = ps.length ∧
      ∀ i (hi : i < ps.length) (hv : i < m.vertices.length) (ha : i < as2.length),
        m.vertices[i].position = transformPoint (effectiveMatrix tm) ps[i] ∧
        m.vertices[i].attrib = ((as2[i]).x, (as2[i]).y)) ∧
    (∃ m, Mesh3.new ps idx as3 tm = .ok m ∧ m.vertices.length = ps.length ∧
      ∀ i (hi : i < ps.length) (hv : i < m.vertices.length) (ha : i < as3.length),
        m.vertices[i].position = transformPoint (effectiveMatrix tm) ps[i] ∧
        m.vertices[i].attrib = ((as3[i]).x, (as3[i]).y, (as3[i]).z)) := by
  rw [mesh2_new_eq_ok ps idx as2 tm h2, mesh3_new_eq_ok ps idx as3 tm h3]
  constructor
  · by_cases hle : ps.length ≤ 65535 <;>
      [rw [if_pos hle]; rw [if_neg hle]] <;>
      exact ⟨_, rfl, mkVertices2_length _ _ _ h2, fun i hi hv ha =>
        by rw [mkVertices2_getElem _ _ _ i hv hi ha]; exact ⟨rfl, rfl⟩⟩
  · by_cases hle : ps.length ≤ 65535 <;>
      [rw [if_pos hle]; rw [if_neg hle]] <;>
      exact ⟨_, rfl, mkVertices3_length _ _ _ h3, fun i hi hv ha =>
        by rw [mkVertices3_getElem _ _ _ i hv hi ha]; exact ⟨rfl, rfl⟩⟩

/-- C1 counterexample: with one vertex and the logical index 65536 (above the
16-bit range 0..65535), `Mesh2::new` does NOT fail with an out-of-range
error: it succeeds with tag `Uint16`, the index silently wrapped to
`65536 % 2 ^ 16 = 0`. -/
theorem index_narrowing_wraps_counterexample :
    Mesh2.new [⟨0, 0, 0⟩] [65536] [⟨0, 0⟩] none =
      .ok ⟨[⟨(0, 0, 1/2), (0, 0)⟩], [0], [], .Uint16, 1⟩ := by
  simp [Mesh2.new, mkVertices2, transformPoint, effectiveMatrix, OPENGL_TO_WGPU_MATRIX,
    Mat4.mulVec]

/-- C1 (amended): if a logical index exceeds the chosen encoding width's
range, construction does not fail — each index is silently wrapped
(truncated) by the `as u16` / `as u32` cast, so the encoded buffer holds the
indices modulo `2 ^ 16` (resp. `2 ^ 32`). -/
theorem index_narrowing_wraps (ps : List V3) (idx : List ℕ) (as2 : List V2)
    (as3 : List V3) (tm : Option Mat4)
    (h2 : ps.length = as2.length) (h3 : ps.length = as3.length) :
    (∃ m, Mesh2.new ps idx as2 tm = .ok m ∧
      (m.index_format = .Uint16 → m.indices_u16 = idx.map (fun x => x % 2 ^ 16)) ∧
      (m.index_format = .Uint32 → m.indices_u32 = idx.map (fun x => x % 2 ^ 32))) ∧
    (∃ m, Mesh3.new ps idx as3 tm = .ok m ∧
      (m.index_format = .Uint16 → m.indices_u16 = idx.map (fun x => x % 2 ^ 16)) ∧
      (m.index_format = .Uint32 → m.indices_u32 = idx.map (fun x => x % 2 ^ 32))) := by
  rw [mesh2_new_eq_ok ps idx as2 tm h2, mesh3_new_eq_ok ps idx as3 tm h3]
  by_cases hle : ps.length ≤ 65535 <;> simp [hle]

/-- C1 witness: the amended statement instantiated at the out-of-range
index 65536 with a single vertex. -/
theorem index_narrowing_wraps_witness :
    (∃ m, Mesh2.new [⟨0, 0, 0⟩] [65536] [⟨0, 0⟩] none = .ok m ∧
      (m.index_format = .Uint16 → m.indices_u16 = [65536].map (fun x => x % 2 ^ 16)) ∧
      (m.index_format = .Uint32 → m.indices_u32 = [65536].map (fun x => x % 2 ^ 32))) ∧
    (∃ m, Mesh3.new [⟨0, 0, 0⟩] [65536] [⟨0, 0, 0⟩] none = .ok m ∧
      (m.index_format = .Uint16 → m.indices_u16 = [65536].map (fun x => x % 2 ^ 16)) ∧
      (m.index_format = .Uint32 → m.indices_u32 = [65536].map (fun x => x % 2 ^ 32))) :=
  index_narrowing_wraps [⟨0, 0, 0⟩] [65536] [⟨0, 0⟩] [⟨0, 0, 0⟩] none rfl rfl

/-- C2: under the length precondition construction succeeds, the produced
vertex count equals the position count, and the mesh uses `Uint16` iff that
count is `≤ 65535` and `Uint32` iff it exceeds 65535 (so in particular
65535 vertices select 16-bit and 65536 select 32-bit), for both `Mesh2::new`
and `Mesh3::new`. -/
theorem index_width_decision (ps : List V3) (idx : List ℕ) (as2 : List V2)
    (as3 : List V3) (tm : Option Mat4)
    (h2 : ps.length = as2.length) (h3 : ps.length = as3.length) :
    (∃ m, Mesh2.new ps idx as2 tm = .ok m ∧ m.vertices.length = ps.length ∧
      (m.get_index_format = .Uint16 ↔ m.vertices.length ≤ 65535) ∧
      (m.get_index_format = .Uint32 ↔ 65535 < m.vertices.length)) ∧
    (∃ m, Mesh3.new ps idx as3 tm = .ok m ∧ m.vertices.length = ps.length ∧
      (m.get_index_format = .Uint16 ↔ m.vertices.length ≤ 65535) ∧
      (m.get_index_format = .Uint32 ↔ 65535 < m.vertices.length)) := by
  rw [mesh2_new_eq_ok ps idx as2 tm h2, mesh3_new_eq_ok ps idx as3 tm h3]
  by_cases hle : ps.length ≤ 65535
  · simp [hle, Mesh2.get_index_format, Mesh3.get_index_format,
      mkVertices2_length _ _ _ h2, mkVertices3_length _ _ _ h3, Nat.not_lt.mpr hle]
  · simp [hle, Mesh2.get_index_format, Mesh3.get_index_format,
      mkVertices2_length _ _ _ h2, mkVertices3_length _ _ _ h3, Nat.not_le.mp hle]

/-- C2 witness: the width decision instantiated at a one-vertex input. -/
theorem index_width_decision_witness :
    (∃ m, Mesh2.new [⟨0,0,0⟩] [0] [⟨0,0⟩] none = .ok m ∧
      m.vertices.length = 1 ∧
      (m.get_index_format = .Uint16 ↔ m.vertices.length ≤ 65535) ∧
      (m.get_index_format = .Uint32 ↔ 65535 < m.vertices.length)) ∧
    (∃ m, Mesh3.new [⟨0,0,0⟩] [0] [⟨0,0,0⟩] none = .ok m ∧
      m.vertices.length = 1 ∧
      (m.get_index_format = .Uint16 ↔ m.vertices.length ≤ 65535) ∧
      (m.get_index_format = .Uint32 ↔ 65535 < m.vertices.length)) := by
  have h := index_width_decision [⟨0,0,0⟩] [0] [⟨0,0⟩] [⟨0,0,0⟩] none rfl rfl
  simpa using h

/-- C3 counterexample: with the all-zero supplied transform, the homogeneous
weight `w` of the position `(0,0,0)` after the effective matrix is zero, yet
both constructors succeed (no degenerate-transform error): the divide is
performed unconditionally. -/
theorem degenerate_w_no_error_counterexample :
    ((effectiveMatrix (some zeroMat)).mulVec ⟨0, 0, 0, 1⟩).w = 0 ∧
    Mesh2.new [⟨0, 0, 0⟩] [0] [⟨0, 0⟩] (some zeroMat) =
      .ok ⟨[⟨(0, 0, 0), (0, 0)⟩], [0], [], .Uint16, 1⟩ ∧
    Mesh3.new [⟨0, 0, 0⟩] [0] [⟨0, 0, 0⟩] (some zeroMat) =
      .ok ⟨[⟨(0, 0, 0), (0, 0, 0)⟩], [], [0], .Uint16, 1⟩ := by
  refine ⟨?_, ?_, ?_⟩ <;>
    simp [Mesh2.new, Mesh3.new, mkVertices2, mkVertices3, transformPoint, effectiveMatrix,
      Mat4.mul, Mat4.mulVec, OPENGL_TO_WGPU_MATRIX, zeroMat]

/-- C3 (amended): for a position whose homogeneous weight `w` after the
effective matrix is zero, construction does not fail: both constructors
succeed and store the unconditional perspective-divide result for that
vertex (non-finite floats in the source; the total `ℚ` division here). -/
theorem degenerate_w_no_error (ps : List V3) (idx : List ℕ) (as2 : List V2)
    (as3 : List V3) (tm : Option Mat4)
    (h2 : ps.length = as2.length) (h3 : ps.length = as3.length)
    (i : ℕ) (hi : i < ps.length)
    (hw : ((effectiveMatrix tm).mulVec ⟨ps[i].x, ps[i].y, ps[i].z, 1⟩).w = 0) :
    (∃ m, Mesh2.new ps idx as2 tm = .ok m ∧
      ∃ hv : i < m.vertices.length,
        m.vertices[i].position = transformPoint (effectiveMatrix tm) ps[i]) ∧
    (∃ m, Mesh3.new ps idx as3 tm = .ok m ∧
      ∃ hv : i < m.vertices.length,
        m.vertices[i].position = transformPoint (effectiveMatrix tm) ps[i]) := by
  obtain ⟨⟨m2, hm2, hl2, hall2⟩, ⟨m3, hm3, hl3, hall3⟩⟩ :=
    mesh_new_order_spec ps idx as2 as3 tm h2 h3
  refine ⟨⟨m2, hm2, hl2 ▸ hi, ?_⟩, ⟨m3, hm3, hl3 ▸ hi, ?_⟩⟩
  · exact (hall2 i hi (hl2 ▸ hi) (h2 ▸ hi)).1
  · exact (hall3 i hi (hl3 ▸ hi) (h3 ▸ hi)).1

/-- C3 witness: the amended statement instantiated at the all-zero transform,
whose effective matrix yields `w = 0` at position `(0,0,0)`. -/
theorem degenerate_w_no_error_witness :
    (∃ m, Mesh2.new [⟨0, 0, 0⟩] [0] [⟨0, 0⟩] (some zeroMat) = .ok m ∧
      ∃ hv : 0 < m.vertices.length,
        m.vertices[0].position =
          transformPoint (effectiveMatrix (some zeroMat)) ([⟨0, 0, 0⟩] : List V3)[0]) ∧
    (∃ m, Mesh3.new [⟨0, 0, 0⟩] [0] [⟨0, 0, 0⟩] (some zeroMat) = .ok m ∧
      ∃ hv : 0 < m.vertices.length,
        m.vertices[0].position =
          transformPoint (effectiveMatrix (some zeroMat)) ([⟨0, 0, 0⟩] : List V3)[0]) :=
  degenerate_w_no_error [⟨0, 0, 0⟩] [0] [⟨0, 0⟩] [⟨0, 0, 0⟩] (some zeroMat) rfl rfl 0
    (by simp)
    (by simp [effectiveMatrix, Mat4.mul, Mat4.mulVec, OPENGL_TO_WGPU_MATRIX, zeroMat])

/-- C4: under the length precondition the constructed vertex sequence has
the input length, and vertex `i` holds exactly the transform of input
position `i` and input attribute `i` (index correspondence preserved; the
source's parallel map reassembles in input order), for `Mesh2::new` and
`Mesh3::new`. -/
theorem vertex_order_preservation (ps : List V3) (idx : List ℕ) (as2 : List V2)
    (as3 : List V3) (tm : Option Mat4)
    (h2 : ps.length = as2.length) (h3 : ps.length = as3.length) :
    (∃ m, Mesh2.new ps idx as2 tm = .ok m ∧ m.vertices.length = ps.length ∧
      ∀ i (hi : i < ps.length) (hv : i < m.vertices.length) (ha : i < as2.length),
        m.vertices[i].position = transformPoint (effectiveMatrix tm) ps[i] ∧
        m.vertices[i].attrib = ((as2[i]).x, (as2[i]).y)) ∧
    (∃ m, Mesh3.new ps idx as3 tm = .ok m ∧ m.vertices.length = ps.length ∧
      ∀ i (hi : i < ps.length) (hv : i < m.vertices.length) (ha : i < as3.length),
        m.vertices[i].position = transformPoint (effectiveMatrix tm) ps[i] ∧
        m.vertices[i].attrib = ((as3[i]).x, (as3[i]).y, (as3[i]).z)) :=
  mesh_new_order_spec ps idx as2 as3 tm h2 h3

/-- C4 witness: order preservation instantiated at a one-vertex input with
distinct coordinate and attribute values. -/
theorem vertex_order_preservation_witness :
    (∃ m, Mesh2.new [⟨1,2,3⟩] [0] [⟨4,5⟩] none = .ok m ∧ m.vertices.length = 1 ∧
      ∀ i (hi : i < 1) (hv : i < m.vertices.length) (ha : i < 1),
        m.vertices[i].position =
          transformPoint (effectiveMatrix none) ([⟨1,2,3⟩] : List V3)[i] ∧
        m.vertices[i].attrib = ((([⟨4,5⟩] : List V2)[i]).x, (([⟨4,5⟩] : List V2)[i]).y)) ∧
    (∃ m, Mesh3.new [⟨1,2,3⟩] [0] [⟨4,5,6⟩] none = .ok m ∧ m.vertices.length = 1 ∧
      ∀ i (hi : i < 1) (hv : i < m.vertices.length) (ha : i < 1),
        m.vertices[i].position =
          transformPoint (effectiveMatrix none) ([⟨1,2,3⟩] : List V3)[i] ∧
        m.vertices[i].attrib = ((([⟨4,5,6⟩] : List V3)[i]).x, (([⟨4,5,6⟩] : List V3)[i]).y,
          (([⟨4,5,6⟩] : List V3)[i]).z)) := by
  have h := vertex_order_preservation [⟨1,2,3⟩] [0] [⟨4,5⟩] [⟨4,5,6⟩] none rfl rfl
  simpa using h

/-- C5: under the length precondition `Mesh2::new` succeeds and
`get_num_indices` returns the input index-list length — the statement holds
for every input, hence in both width branches. -/
theorem num_indices_roundtrip (ps : List V3) (idx : List ℕ) (as2 : List V2)
    (tm : Option Mat4) (h2 : ps.length = as2.length) :
    ∃ m, Mesh2.new ps idx as2 tm = .ok m ∧ m.get_num_indices = idx.length := by
  rw [mesh2_new_eq_ok ps idx as2 tm h2]
  by_cases hle : ps.length ≤ 65535
  · exact ⟨_, if_pos hle, rfl⟩
  · exact ⟨_, if_neg hle, rfl⟩

/-- C5 witness: the index count round-trip at a three-index input. -/
theorem num_indices_roundtrip_witness :
    ∃ m, Mesh2.new [⟨0,0,0⟩] [0, 0, 0] [⟨0,0⟩] none = .ok m ∧
      m.get_num_indices = 3 := by
  have h := num_indices_roundtrip [⟨0,0,0⟩] [0, 0, 0] [⟨0,0⟩] none rfl
  simpa using h

/-- C6: with no supplied transform the effective matrix is the clip-space
conversion alone: every homogeneous position gets weight `w = 1` and maps to
`(x, y, 0.5*z + 0.5)`; concretely, the unit rectangle (positions
`[(0,0,0),(1,0,0),(1,1,0),(0,1,0)]`, attributes `[(0,1),(1,1),(1,0),(0,0)]`,
indices `[0,1,2,0,2,3]`, no transform) yields 4 vertices, 16-bit index
format, `get_num_indices() = 6`, and vertex 0 at `(0, 0, 1/2)` — z-coordinate
`0.5`, x and y unchanged. -/
theorem unit_rectangle_clip_conversion :
    (∀ p : V3, ((effectiveMatrix none).mulVec ⟨p.x, p.y, p.z, 1⟩).w = 1 ∧
      transformPoint (effectiveMatrix none) p = (p.x, p.y, p.z / 2 + 1 / 2)) ∧
    (∃ r, Rectangle.new_unit_rectangle = .ok r ∧
      r.mesh.vertices.length = 4 ∧
      r.get_index_format = .Uint16 ∧
      r.get_num_indices = 6 ∧
      ∃ hv : 0 < r.mesh.vertices.length,
        r.mesh.vertices[0].position = (0, 0, 1 / 2)) := by
  constructor
  · intro p
    constructor
    · simp [effectiveMatrix, OPENGL_TO_WGPU_MATRIX, Mat4.mulVec]
    · simp [transformPoint, effectiveMatrix, OPENGL_TO_WGPU_MATRIX, Mat4.mulVec]
      ring_nf
  · refine ⟨⟨⟨[⟨(0, 0, 1/2), (0, 1)⟩, ⟨(1, 0, 1/2), (1, 1)⟩,
      ⟨(1, 1, 1/2), (1, 0)⟩, ⟨(0, 1, 1/2), (0, 0)⟩],
      [0, 1, 2, 0, 2, 3], [], .Uint16, 6⟩⟩, ?_, rfl, rfl, rfl, by simp, rfl⟩
    simp [Rectangle.new_unit_rectangle, Rectangle.INDICES, Mesh2.new, mkVertices2,
      transformPoint, effectiveMatrix, OPENGL_TO_WGPU_MATRIX, Mat4.mulVec, Except.map]

/-- C7: when the position and attribute lists have different lengths, both
constructors abort with the length-mismatch error — no mesh is produced. -/
theorem length_mismatch_aborts (ps : List V3) (idx : List ℕ) (as2 : List V2)
    (as3 : List V3) (tm : Option Mat4)
    (h2 : ps.length ≠ as2.length) (h3 : ps.length ≠ as3.length) :
    Mesh2.new ps idx as2 tm = .error .lengthMismatch ∧
    Mesh3.new ps idx as3 tm = .error .lengthMismatch := by
  constructor
  · simp [Mesh2.new, h2]
  · simp [Mesh3.new, h3]

/-- C7 witness: one position against an empty attribute list aborts. -/
theorem length_mismatch_aborts_witness :
    Mesh2.new [⟨0,0,0⟩] [0] [] none = .error .lengthMismatch ∧
    Mesh3.new [⟨0,0,0⟩] [0] [] none = .error .lengthMismatch := by
  exact length_mismatch_aborts [⟨0,0,0⟩] [0] [] [] none (by simp) (by simp)

/-- C8 counterexample: the empty mesh (a mesh the code constructs without
failure) has BOTH index buffers empty, so "exactly one of the two index
encodings is populated while the other is empty" fails. -/
theorem index_encoding_invariant_counterexample :
    Mesh2.new [] [] [] none = .ok ⟨[], [], [], .Uint16, 0⟩ ∧
    ¬ (Mesh2.mk [] [] [] .Uint16 0).exactlyOneEncodingPopulated := by
  constructor
  · simp [Mesh2.new, mkVertices2]
  · simp [Mesh2.exactlyOneEncodingPopulated]

/-- C8 (amended): every constructed mesh satisfies — the index buffer not
selected by the format tag is empty (so at most one encoding is populated,
and a populated one matches the tag), and the stored logical index count
equals the number of entries in the format-tagged buffer; both buffers are
empty exactly when the index list is empty.  Established at construction
and preserved: the embedding, like the source, has no mutation API. -/
theorem index_encoding_invariant (ps : List V3) (idx : List ℕ) (as2 : List V2)
    (as3 : List V3) (tm : Option Mat4)
    (h2 : ps.length = as2.length) (h3 : ps.length = as3.length) :
    (∃ m, Mesh2.new ps idx as2 tm = .ok m ∧
      ((m.index_format = .Uint16 ∧ m.indices_u32 = [] ∧
        m.index_length = m.indices_u16.length) ∨
       (m.index_format = .Uint32 ∧ m.indices_u16 = [] ∧
        m.index_length = m.indices_u32.length))) ∧
    (∃ m, Mesh3.new ps idx as3 tm = .ok m ∧
      ((m.index_format = .Uint16 ∧ m.indices_u32 = [] ∧
        m.index_length = m.indices_u16.length) ∨
       (m.index_format = .Uint32 ∧ m.indices_u16 = [] ∧
        m.index_length = m.indices_u32.length))) := by
  rw [mesh2_new_eq_ok ps idx as2 tm h2, mesh3_new_eq_ok ps idx as3 tm h3]
  by_cases hle : ps.length ≤ 65535 <;> simp [hle]

/-- C8 witness: the amended invariant at a one-vertex, two-index input. -/
theorem index_encoding_invariant_witness :
    (∃ m, Mesh2.new [⟨0, 0, 0⟩] [0, 1] [⟨0, 0⟩] none = .ok m ∧
      ((m.index_format = .Uint16 ∧ m.indices_u32 = [] ∧
        m.index_length = m.indices_u16.length) ∨
       (m.index_format = .Uint32 ∧ m.indices_u16 = [] ∧
        m.index_length = m.indices_u32.length))) ∧
    (∃ m, Mesh3.new [⟨0, 0, 0⟩] [0, 1] [⟨0, 0, 0⟩] none = .ok m ∧
      ((m.index_format = .Uint16 ∧ m.indices_u32 = [] ∧
        m.index_length = m.indices_u16.length) ∨
       (m.index_format = .Uint32 ∧ m.indices_u16 = [] ∧
        m.index_length = m.indices_u32.length))) :=
  index_encoding_invariant [⟨0, 0, 0⟩] [0, 1] [⟨0, 0⟩] [⟨0, 0, 0⟩] none rfl rfl

/-- C9: constructing from empty position, attribute and index lists succeeds
(no failure) and the resulting mesh reports `get_num_indices() = 0`. -/
theorem empty_mesh_valid :
    ∃ m, Mesh2.new [] [] [] none = .ok m ∧ m.get_num_indices = 0 := by
  exact ⟨⟨[], [], [], .Uint16, 0⟩, by simp [Mesh2.new, mkVertices2], rfl⟩

/-- C10: construction never validates index values — for every equal-length
position/attribute pair and EVERY index list (including indices at or above
the vertex count, or beyond the chosen width's range) both constructors
return a mesh without error. -/
theorem no_index_validation (ps : List V3) (idx : List ℕ) (as2 : List V2)
    (as3 : List V3) (tm : Option Mat4)
    (h2 : ps.length = as2.length) (h3 : ps.length = as3.length) :
    (Mesh2.new ps idx as2 tm).isOk = true ∧ (Mesh3.new ps idx as3 tm).isOk = true := by
  rw [mesh2_new_eq_ok ps idx as2 tm h2, mesh3_new_eq_ok ps idx as3 tm h3]
  by_cases hle : ps.length ≤ 65535 <;> simp [hle, Except.isOk, Except.toBool]

/-- C10 witness: one vertex with indices 5 and 70000 — both indices refer to
nonexistent vertices and 70000 exceeds the 16-bit range, yet construction
succeeds. -/
theorem no_index_validation_witness :
    (Mesh2.new [⟨0,0,0⟩] [5, 70000] [⟨0,0⟩] none).isOk = true ∧
    (Mesh3.new [⟨0,0,0⟩] [5, 70000] [⟨0,0,0⟩] none).isOk = true :=
  no_index_validation [⟨0,0,0⟩] [5, 70000] [⟨0,0⟩] [⟨0,0,0⟩] none rfl rfl
